import Mathlib

/-!
Verification of the g2tpy repository-to-text engine.

The repository has two Python front-ends, dpp.py and new_main.py, each
holding a copy of the same core engine: a function process_files that walks
a root directory, filters files by size and a name-based text classifier,
reads each surviving file as UTF-8, and appends a formatted record per file
to one output artifact while counting processed and skipped files.

The embedding below models the filesystem walk as input data: a list of
walk entries, one per directory visited by os.walk, each holding the
accumulated directory path and the list of files in it.  Per-file
filesystem outcomes are modelled by the inductive FileData: an I/O error
while sizing or opening the file, a UTF-8 decode failure (with the size
observed before the failed read), or a successful read of size and
content.  The standard-library MIME table (mimetypes.guess_type) is an
abstract parameter.  The size threshold is modelled as an exact rational.
-/

/-- Models the Python standard library helper used by the engine: true iff
the pattern list of characters occurs contiguously inside the other list.
This is the semantics of the Python expression pat in s on strings. -/
def charsHaveSub (pat : List Char) : List Char → Bool
  | [] => decide (pat = [])
  | c :: rest => List.isPrefixOf pat (c :: rest) || charsHaveSub pat rest

/-- Substring containment on strings, the semantics of Python pat in s. -/
def strContains (s pat : String) : Bool :=
  charsHaveSub pat.data s.data

/-- Models os.path.join for the simple case the engine uses: the walk root
joined with a plain file name. -/
def joinPath (root name : String) : String :=
  if root = "" then name else root ++ "/" ++ name

/-- Splits a list of characters at slashes, accumulating the current
component in reverse; models Python str.split on the slash separator. -/
def splitSlashAux : List Char → List Char → List String
  | [], cur => [String.mk cur.reverse]
  | c :: rest, cur =>
    if c = '/' then String.mk cur.reverse :: splitSlashAux rest []
    else splitSlashAux rest (c :: cur)

/-- Path components of a slash-separated path, empty components dropped. -/
def splitComponents (p : String) : List String :=
  (splitSlashAux p.data []).filter (fun c => c ≠ "")

/-- Models Python str.lower character by character; the paths the engine
compares are ASCII, where this matches. -/
def strToLower (s : String) : String :=
  String.mk (s.data.map Char.toLower)

/-- Models Python str.startswith on strings. -/
def strStartsWith (s pat : String) : Bool :=
  List.isPrefixOf pat.data s.data

/-- Models pathlib Path(p).name: the final path component. -/
def pathName (p : String) : String :=
  (splitComponents p).getLastD ""

/-- Index of the last dot in a list of characters, if any. -/
def lastDotIdx : List Char → Option Nat
  | [] => none
  | c :: rest =>
    match lastDotIdx rest with
    | some i => some (i + 1)
    | none => if c = '.' then some 0 else none

/-- Models pathlib Path(p).suffix: the extension of the final component,
including the dot, empty when the only dot is leading or trailing. -/
def pathSuffix (p : String) : String :=
  let name := pathName p
  match lastDotIdx name.data with
  | none => ""
  | some i =>
    if 0 < i ∧ i < name.data.length - 1 then String.mk (name.data.drop i) else ""

/-- Drops the longest common leading run of two component lists, returning
the two remainders. -/
def dropCommon : List String → List String → List String × List String
  | a :: as, b :: bs => if a = b then dropCommon as bs else (a :: as, b :: bs)
  | as, bs => (as, bs)

/-- Models os.path.relpath(path, start) for already-normalized absolute or
root-relative paths: strip the common component run, then one dot-dot per
remaining start component followed by the remaining path components. -/
def relpath (path start : String) : String :=
  let rest := dropCommon (splitComponents path) (splitComponents start)
  let parts := rest.2.map (fun _ => "..") ++ rest.1
  if parts = [] then "." else String.intercalate "/" parts

/-- Models the Python f-string formatting of n / 1024 to two decimal
places: the exact rational n / 1024 rounded to two decimals with ties
going to even, then printed with a two-digit fractional part.  The scaled
value is n * 100 / 1024 = n * 25 / 256, and since n / 1024 is an exact
binary float for all realistic sizes, rounding the rational matches the
float formatting. -/
def format2f (n : Nat) : String :=
  let num := n * 25
  let q := num / 256
  let r := num % 256
  let rounded := if 128 < r then q + 1 else if r < 128 then q else q + q % 2
  toString (rounded / 100) ++ "." ++
    (if rounded % 100 < 10 then "0" else "") ++ toString (rounded % 100)

/-- Outcome of the filesystem for one file during the run: an I/O error
raised while sizing or opening it, a UTF-8 decode failure during the read
(with the size obtained before it), or a successful sized UTF-8 read. -/
inductive FileData where
  | ioError : FileData
  | decodeError (size : Nat) : FileData
  | ok (size : Nat) (content : String) : FileData
deriving DecidableEq, Repr

/-- One os.walk entry: the accumulated directory path and the files found
directly in that directory. -/
structure WalkEntry where
  root : String
  files : List (String × FileData)
deriving DecidableEq, Repr

/-- State of one run: the artifact content written so far and the two
counters. -/
structure RunResult where
  output : String
  processed : Nat
  skipped : Nat
deriving DecidableEq, Repr

namespace Dpp

/-- The fixed allow-list of text extensions from dpp.is_text_file. -/
def text_extensions : List String :=
  [".txt", ".js", ".py", ".html", ".css", ".md", ".json", ".xml", ".yaml",
   ".yml", ".c", ".cpp", ".h", ".hpp", ".java", ".go", ".sh", ".rb", ".php"]

/-- Embedding of dpp.is_text_file, with mimetypes.guess_type abstracted as
the parameter guessType. -/
def is_text_file (guessType : String → Option String) (filepath : String) : Bool :=
  match guessType filepath with
  | none => text_extensions.contains (strToLower (pathSuffix filepath))
  | some mime => strStartsWith mime "text/"

/-- The separator line written around each record header: 80 equals
signs. -/
def sepLine : String := String.mk (List.replicate 80 '=')

/-- The record appended to the artifact for one included file, exactly the
five outfile.write calls of dpp.process_files concatenated. -/
def mkRecord (relativePath : String) (size : Nat) (content : String) : String :=
  sepLine ++ "\n" ++ "File: " ++ relativePath ++ "\n" ++
  "Size: " ++ format2f size ++ " KB" ++ "\n" ++
  sepLine ++ "\n" ++ "\n" ++ content ++ "\n"

/-- The per-file body of dpp.process_files: given the directory root and
one file with its filesystem outcome, the output appended and the
increments of the processed and skipped counters. -/
def processOneFile (repoDir : String) (thresholdBytes : ℚ) (includeAll : Bool)
    (guessType : String → Option String) (root : String)
    (f : String × FileData) : String × Nat × Nat :=
  let filepath := joinPath root f.1
  match f.2 with
  | .ioError => ("", 0, 1)
  | .decodeError size =>
    if includeAll = false ∧ thresholdBytes < (size : ℚ) then ("", 0, 1)
    else if includeAll = false ∧ is_text_file guessType filepath = false then ("", 0, 1)
    else ("", 0, 1)
  | .ok size content =>
    if includeAll = false ∧ thresholdBytes < (size : ℚ) then ("", 0, 1)
    else if includeAll = false ∧ is_text_file guessType filepath = false then ("", 0, 1)
    else (mkRecord (relpath filepath repoDir) size content, 1, 0)

/-- Applies one per-file outcome to the run state. -/
def addOutcome (acc : RunResult) (d : String × Nat × Nat) : RunResult :=
  ⟨acc.output ++ d.1, acc.processed + d.2.1, acc.skipped + d.2.2⟩

/-- The inner loop of dpp.process_files over the files of one directory. -/
def processFilesFold (repoDir : String) (thresholdBytes : ℚ) (includeAll : Bool)
    (guessType : String → Option String) (root : String)
    (acc : RunResult) (fs : List (String × FileData)) : RunResult :=
  fs.foldl (fun a f => addOutcome a (processOneFile repoDir thresholdBytes includeAll guessType root f)) acc

/-- The body of the os.walk loop of dpp.process_files: a directory whose
accumulated path contains node_modules is skipped whole, otherwise its
files are processed in order. -/
def processEntry (repoDir : String) (thresholdBytes : ℚ) (includeAll : Bool)
    (guessType : String → Option String) (acc : RunResult) (e : WalkEntry) : RunResult :=
  if strContains e.root "node_modules" then acc
  else processFilesFold repoDir thresholdBytes includeAll guessType e.root acc e.files

/-- Embedding of dpp.process_files: the walk is the list of os.walk
entries, the threshold is given in megabytes and converted to bytes, and
the artifact starts empty because the output file is opened in truncate
mode. -/
def process_files (repoDir : String) (walk : List WalkEntry) (threshold_mb : ℚ)
    (include_all : Bool) (guessType : String → Option String) : RunResult :=
  let thresholdBytes := threshold_mb * 1024 * 1024
  walk.foldl (processEntry repoDir thresholdBytes include_all guessType) ⟨"", 0, 0⟩

/-- Embedding of dpp.process_files including its fatal path: if the output
artifact cannot be opened for writing, the exception is logged and
re-raised, otherwise the run completes with its result. -/
def process_files_run (outputOpenable : Bool) (repoDir : String)
    (walk : List WalkEntry) (threshold_mb : ℚ) (include_all : Bool)
    (guessType : String → Option String) : Except String RunResult :=
  if outputOpenable then .ok (process_files repoDir walk threshold_mb include_all guessType)
  else .error "Failed to process files"

end Dpp

namespace NewMain

/-- The fixed allow-list of text extensions from new_main.is_text_file. -/
def text_extensions : List String :=
  [".txt", ".js", ".py", ".html", ".css", ".md", ".json", ".xml", ".yaml",
   ".yml", ".c", ".cpp", ".h", ".hpp", ".java", ".go", ".sh", ".rb", ".php"]

/-- Embedding of new_main.is_text_file, with mimetypes.guess_type
abstracted as the parameter guessType. -/
def is_text_file (guessType : String → Option String) (filepath : String) : Bool :=
  match guessType filepath with
  | none => text_extensions.contains (strToLower (pathSuffix filepath))
  | some mime => strStartsWith mime "text/"

/-- The separator line of new_main.process_files: 80 equals signs. -/
def sepLine : String := String.mk (List.replicate 80 '=')

/-- The record appended to the artifact for one included file by
new_main.process_files. -/
def mkRecord (relativePath : String) (size : Nat) (content : String) : String :=
  sepLine ++ "\n" ++ "File: " ++ relativePath ++ "\n" ++
  "Size: " ++ format2f size ++ " KB" ++ "\n" ++
  sepLine ++ "\n" ++ "\n" ++ content ++ "\n"

/-- The per-file body of new_main.process_files. -/
def processOneFile (repoDir : String) (thresholdBytes : ℚ) (includeAll : Bool)
    (guessType : String → Option String) (root : String)
    (f : String × FileData) : String × Nat × Nat :=
  let filepath := joinPath root f.1
  match f.2 with
  | .ioError => ("", 0, 1)
  | .decodeError size =>
    if includeAll = false ∧ thresholdBytes < (size : ℚ) then ("", 0, 1)
    else if includeAll = false ∧ is_text_file guessType filepath = false then ("", 0, 1)
    else ("", 0, 1)
  | .ok size content =>
    if includeAll = false ∧ thresholdBytes < (size : ℚ) then ("", 0, 1)
    else if includeAll = false ∧ is_text_file guessType filepath = false then ("", 0, 1)
    else (mkRecord (relpath filepath repoDir) size content, 1, 0)

/-- The inner loop of new_main.process_files over one directory. -/
def processFilesFold (repoDir : String) (thresholdBytes : ℚ) (includeAll : Bool)
    (guessType : String → Option String) (root : String)
    (acc : RunResult) (fs : List (String × FileData)) : RunResult :=
  fs.foldl (fun a f => Dpp.addOutcome a (processOneFile repoDir thresholdBytes includeAll guessType root f)) acc

/-- The body of the os.walk loop of new_main.process_files. -/
def processEntry (repoDir : String) (thresholdBytes : ℚ) (includeAll : Bool)
    (guessType : String → Option String) (acc : RunResult) (e : WalkEntry) : RunResult :=
  if strContains e.root "node_modules" then acc
  else processFilesFold repoDir thresholdBytes includeAll guessType e.root acc e.files

/-- Embedding of new_main.process_files. -/
def process_files (repoDir : String) (walk : List WalkEntry) (threshold_mb : ℚ)
    (include_all : Bool) (guessType : String → Option String) : RunResult :=
  let thresholdBytes := threshold_mb * 1024 * 1024
  walk.foldl (processEntry repoDir thresholdBytes include_all guessType) ⟨"", 0, 0⟩

/-- Embedding of new_main.process_files including its fatal output-open
path. -/
def process_files_run (outputOpenable : Bool) (repoDir : String)
    (walk : List WalkEntry) (threshold_mb : ℚ) (include_all : Bool)
    (guessType : String → Option String) : Except String RunResult :=
  if outputOpenable then .ok (process_files repoDir walk threshold_mb include_all guessType)
  else .error "Failed to process files"

/-- Embedding of new_main.is_git_repository: the path joined with .git
must exist and be a directory; the two booleans are the answers of the
filesystem for that joined path. -/
def is_git_repository (gitDirExists gitDirIsDir : Bool) : Bool :=
  gitDirExists && gitDirIsDir

/-- Embedding of the local-path branch of new_main.main: the root is
validated to exist and be a directory, then to be a git repository, and
only then is process_files invoked; every raised exception is caught at
the top of main and turned into a non-zero exit, modelled as an error
value. -/
def main_local (pathExists pathIsDir gitDirExists gitDirIsDir outputOpenable : Bool)
    (repoDir : String) (walk : List WalkEntry) (threshold_mb : ℚ)
    (include_all : Bool) (guessType : String → Option String) : Except String RunResult :=
  if pathExists = false ∨ pathIsDir = false then
    .error "Local path does not exist or is not a directory."
  else if is_git_repository gitDirExists gitDirIsDir = false then
    .error "The directory is not a valid Git repository."
  else
    process_files_run outputOpenable repoDir walk threshold_mb include_all guessType

end NewMain

set_option maxRecDepth 20000

/-- Number of files the walk discovers in one entry, zero for a directory
whose accumulated path contains the excluded marker. -/
def entryCount (e : WalkEntry) : Nat :=
  if strContains e.root "node_modules" then 0 else e.files.length

/-- Number of files discovered outside excluded directories over the whole
walk. -/
def discoveredCount (walk : List WalkEntry) : Nat :=
  (walk.map entryCount).sum

namespace Dpp

/-- Every candidate contributes exactly one to the two counters taken
together. -/
theorem processOneFile_one (repoDir : String) (thresholdBytes : ℚ) (includeAll : Bool)
    (guessType : String → Option String) (root : String) (f : String × FileData) :
    (processOneFile repoDir thresholdBytes includeAll guessType root f).2.1 +
      (processOneFile repoDir thresholdBytes includeAll guessType root f).2.2 = 1 := by
  rcases f with ⟨name, fd⟩
  cases fd <;> simp only [processOneFile] <;> split_ifs <;> simp

/-- The inner loop adds exactly the number of files of the directory to
the two counters taken together. -/
theorem processFilesFold_counts (repoDir : String) (thresholdBytes : ℚ) (includeAll : Bool)
    (guessType : String → Option String) (root : String) :
    ∀ (fs : List (String × FileData)) (acc : RunResult),
    (processFilesFold repoDir thresholdBytes includeAll guessType root acc fs).processed +
      (processFilesFold repoDir thresholdBytes includeAll guessType root acc fs).skipped =
      acc.processed + acc.skipped + fs.length := by
  intro fs
  induction fs with
  | nil => intro acc; simp [processFilesFold]
  | cons f fs ih =>
    intro acc
    have h1 := processOneFile_one repoDir thresholdBytes includeAll guessType root f
    simp only [processFilesFold, List.foldl_cons] at ih ⊢
    rw [ih]
    simp only [addOutcome, List.length_cons]
    omega

/-- The inner loop never decreases either counter. -/
theorem processFilesFold_mono (repoDir : String) (thresholdBytes : ℚ) (includeAll : Bool)
    (guessType : String → Option String) (root : String) :
    ∀ (fs : List (String × FileData)) (acc : RunResult),
    acc.processed ≤ (processFilesFold repoDir thresholdBytes includeAll guessType root acc fs).processed ∧
    acc.skipped ≤ (processFilesFold repoDir thresholdBytes includeAll guessType root acc fs).skipped := by
  intro fs
  induction fs with
  | nil => intro acc; simp [processFilesFold]
  | cons f fs ih =>
    intro acc
    have h := ih (addOutcome acc (processOneFile repoDir thresholdBytes includeAll guessType root f))
    simp only [processFilesFold, List.foldl_cons] at h ⊢
    refine ⟨le_trans ?_ h.1, le_trans ?_ h.2⟩ <;> simp [addOutcome]

/-- One walk entry adds exactly its discovered-file count to the two
counters taken together. -/
theorem processEntry_counts (repoDir : String) (thresholdBytes : ℚ) (includeAll : Bool)
    (guessType : String → Option String) (acc : RunResult) (e : WalkEntry) :
    (processEntry repoDir thresholdBytes includeAll guessType acc e).processed +
      (processEntry repoDir thresholdBytes includeAll guessType acc e).skipped =
      acc.processed + acc.skipped + entryCount e := by
  unfold processEntry entryCount
  split_ifs with h
  · simp
  · exact processFilesFold_counts repoDir thresholdBytes includeAll guessType e.root e.files acc

/-- One walk entry never decreases either counter. -/
theorem processEntry_mono (repoDir : String) (thresholdBytes : ℚ) (includeAll : Bool)
    (guessType : String → Option String) (acc : RunResult) (e : WalkEntry) :
    acc.processed ≤ (processEntry repoDir thresholdBytes includeAll guessType acc e).processed ∧
    acc.skipped ≤ (processEntry repoDir thresholdBytes includeAll guessType acc e).skipped := by
  unfold processEntry
  split_ifs with h
  · exact ⟨le_refl _, le_refl _⟩
  · exact processFilesFold_mono repoDir thresholdBytes includeAll guessType e.root e.files acc

/-- The walk loop adds exactly the discovered-file count to the two
counters taken together. -/
theorem runFold_counts (repoDir : String) (thresholdBytes : ℚ) (includeAll : Bool)
    (guessType : String → Option String) :
    ∀ (walk : List WalkEntry) (acc : RunResult),
    (walk.foldl (processEntry repoDir thresholdBytes includeAll guessType) acc).processed +
      (walk.foldl (processEntry repoDir thresholdBytes includeAll guessType) acc).skipped =
      acc.processed + acc.skipped + discoveredCount walk := by
  intro walk
  induction walk with
  | nil => intro acc; simp [discoveredCount]
  | cons e w ih =>
    intro acc
    have h1 := processEntry_counts repoDir thresholdBytes includeAll guessType acc e
    simp only [List.foldl_cons] at ih ⊢
    rw [ih]
    simp only [discoveredCount, List.map_cons, List.sum_cons]
    omega

/-- The walk loop never decreases either counter. -/
theorem runFold_mono (repoDir : String) (thresholdBytes : ℚ) (includeAll : Bool)
    (guessType : String → Option String) :
    ∀ (walk : List WalkEntry) (acc : RunResult),
    acc.processed ≤ (walk.foldl (processEntry repoDir thresholdBytes includeAll guessType) acc).processed ∧
    acc.skipped ≤ (walk.foldl (processEntry repoDir thresholdBytes includeAll guessType) acc).skipped := by
  intro walk
  induction walk with
  | nil => intro acc; exact ⟨le_refl _, le_refl _⟩
  | cons e w ih =>
    intro acc
    have h1 := processEntry_mono repoDir thresholdBytes includeAll guessType acc e
    have h2 := ih (processEntry repoDir thresholdBytes includeAll guessType acc e)
    simp only [List.foldl_cons] at h2 ⊢
    omega

end Dpp

/-- C1: for every run of process_files, processed plus skipped equals the
number of files discovered outside excluded directories; every candidate
is counted in exactly one of the two categories; and extending the walk
never decreases either counter, so both only ever increase during the
run. -/
theorem claim_c1_counters (repoDir : String) (walk : List WalkEntry) (threshold_mb : ℚ)
    (include_all : Bool) (guessType : String → Option String) :
    ((Dpp.process_files repoDir walk threshold_mb include_all guessType).processed +
      (Dpp.process_files repoDir walk threshold_mb include_all guessType).skipped =
      discoveredCount walk)
    ∧ (∀ (thresholdBytes : ℚ) (root : String) (f : String × FileData),
        (Dpp.processOneFile repoDir thresholdBytes include_all guessType root f).2.1 +
          (Dpp.processOneFile repoDir thresholdBytes include_all guessType root f).2.2 = 1)
    ∧ (∀ w2 : List WalkEntry,
        (Dpp.process_files repoDir walk threshold_mb include_all guessType).processed ≤
          (Dpp.process_files repoDir (walk ++ w2) threshold_mb include_all guessType).processed ∧
        (Dpp.process_files repoDir walk threshold_mb include_all guessType).skipped ≤
          (Dpp.process_files repoDir (walk ++ w2) threshold_mb include_all guessType).skipped) := by
  refine ⟨?_, ?_, ?_⟩
  · have h := Dpp.runFold_counts repoDir (threshold_mb * 1024 * 1024) include_all guessType walk ⟨"", 0, 0⟩
    simpa [Dpp.process_files] using h
  · intro thresholdBytes root f
    exact Dpp.processOneFile_one repoDir thresholdBytes include_all guessType root f
  · intro w2
    have hm := Dpp.runFold_mono repoDir (threshold_mb * 1024 * 1024) include_all guessType w2
      (walk.foldl (Dpp.processEntry repoDir (threshold_mb * 1024 * 1024) include_all guessType) ⟨"", 0, 0⟩)
    simp only [Dpp.process_files, List.foldl_append]
    exact hm

namespace Dpp

/-- Characterization of the processed outcome for a readable candidate:
it is processed exactly when includeAll holds or it is both within the
size threshold and classified as text. -/
theorem processOneFile_ok_processed (repoDir : String) (thresholdBytes : ℚ) (includeAll : Bool)
    (guessType : String → Option String) (root name : String) (size : Nat) (content : String) :
    (processOneFile repoDir thresholdBytes includeAll guessType root
        (name, FileData.ok size content)).2.1 = 1 ↔
      (includeAll = true ∨
        ((size : ℚ) ≤ thresholdBytes ∧
          is_text_file guessType (joinPath root name) = true)) := by
  simp only [processOneFile]
  split_ifs with h1 h2
  · rcases h1 with ⟨hia, hlt⟩
    simp [hia, not_le.mpr hlt]
  · rcases h2 with ⟨hia, htext⟩
    simp [hia, htext]
  · push_neg at h1 h2
    constructor
    · intro _
      cases hia : includeAll with
      | true => exact Or.inl rfl
      | false =>
        refine Or.inr ⟨h1 hia, ?_⟩
        cases htext : is_text_file guessType (joinPath root name) with
        | true => rfl
        | false => exact absurd htext (h2 hia)
    · intro _; rfl

end Dpp

/-- C2: the inclusion decision of the filter.  With includeAll a readable
candidate is always processed regardless of size and classification; with
includeAll off a readable candidate is skipped exactly when its size in
bytes strictly exceeds threshold_mb * 1024 * 1024 or the classifier says
it is not text; and a candidate whose size equals the threshold in bytes
exactly is not size-excluded: it is processed whenever the classifier
accepts it or includeAll holds. -/
theorem claim_c2_filter (threshold_mb : ℚ) (include_all : Bool)
    (guessType : String → Option String) (repoDir root name : String)
    (size : Nat) (content : String) :
    (include_all = true →
      (Dpp.processOneFile repoDir (threshold_mb * 1024 * 1024) include_all guessType root
        (name, FileData.ok size content)).2.1 = 1)
    ∧ (include_all = false →
      ((Dpp.processOneFile repoDir (threshold_mb * 1024 * 1024) include_all guessType root
          (name, FileData.ok size content)).2.2 = 1 ↔
        (threshold_mb * 1024 * 1024 < (size : ℚ) ∨
          Dpp.is_text_file guessType (joinPath root name) = false)))
    ∧ ((size : ℚ) = threshold_mb * 1024 * 1024 →
      (include_all = true ∨ Dpp.is_text_file guessType (joinPath root name) = true) →
      (Dpp.processOneFile repoDir (threshold_mb * 1024 * 1024) include_all guessType root
        (name, FileData.ok size content)).2.1 = 1) := by
  have hchar := Dpp.processOneFile_ok_processed repoDir (threshold_mb * 1024 * 1024) include_all
    guessType root name size content
  have hone := Dpp.processOneFile_one repoDir (threshold_mb * 1024 * 1024) include_all
    guessType root (name, FileData.ok size content)
  refine ⟨?_, ?_, ?_⟩
  · intro hia
    exact hchar.mpr (Or.inl hia)
  · intro hia
    subst hia
    simp only [Bool.false_eq_true, false_or] at hchar
    have hiff : (Dpp.processOneFile repoDir (threshold_mb * 1024 * 1024) false guessType root
        (name, FileData.ok size content)).2.2 = 1 ↔
        ¬ (Dpp.processOneFile repoDir (threshold_mb * 1024 * 1024) false guessType root
          (name, FileData.ok size content)).2.1 = 1 := by omega
    rw [hiff, hchar, not_and_or, not_le, Bool.not_eq_true]
  · intro hsize hpass
    refine hchar.mpr ?_
    rcases hpass with hia | htext
    · exact Or.inl hia
    · exact Or.inr ⟨le_of_eq hsize, htext⟩

/-- Witness for C2: with a one-megabyte threshold a 1048576-byte text file
sits exactly at the threshold and is processed, and with includeAll a file
with an unrecognized binary extension of the same size is processed as
well. -/
theorem claim_c2_filter_witness :
    (Dpp.processOneFile "r" ((1 : ℚ) * 1024 * 1024) false (fun _ => none) "r"
      ("a.txt", FileData.ok 1048576 "x")).2.1 = 1
    ∧ (Dpp.processOneFile "r" ((1 : ℚ) * 1024 * 1024) true (fun _ => none) "r"
      ("b.bin", FileData.ok 1048576 "x")).2.1 = 1 :=
  ⟨(claim_c2_filter 1 false (fun _ => none) "r" "r" "a.txt" 1048576 "x").2.2
      (by norm_num) (Or.inr (by decide)),
   (claim_c2_filter 1 true (fun _ => none) "r" "r" "b.bin" 1048576 "x").1 rfl⟩

/-- C3: the classifier answers true iff a MIME type is guessed for the
name and begins with text/, or no MIME type is guessed and the lowercase
extension of the path is in the fixed allow-list; and for readable
candidates the decision never depends on the file content. -/
theorem claim_c3_classifier (guessType : String → Option String) (filepath : String) :
    (Dpp.is_text_file guessType filepath = true ↔
      ((∃ mime, guessType filepath = some mime ∧ strStartsWith mime "text/" = true) ∨
       (guessType filepath = none ∧
        strToLower (pathSuffix filepath) ∈
          [".txt", ".js", ".py", ".html", ".css", ".md", ".json", ".xml", ".yaml",
           ".yml", ".c", ".cpp", ".h", ".hpp", ".java", ".go", ".sh", ".rb", ".php"])))
    ∧ (∀ (repoDir : String) (thresholdBytes : ℚ) (includeAll : Bool) (root name : String)
        (size : Nat) (c1 c2 : String),
        (Dpp.processOneFile repoDir thresholdBytes includeAll guessType root
          (name, FileData.ok size c1)).2.1 =
        (Dpp.processOneFile repoDir thresholdBytes includeAll guessType root
          (name, FileData.ok size c2)).2.1) := by
  constructor
  · unfold Dpp.is_text_file
    cases hg : guessType filepath with
    | none => simp [hg, Dpp.text_extensions]
    | some mime => simp [hg]
  · intro repoDir thresholdBytes includeAll root name size c1 c2
    simp only [Dpp.processOneFile]
    split_ifs <;> rfl

/-- C8: a walk entry whose accumulated directory path contains the
excluded marker node_modules contributes zero candidates: it leaves the
run state untouched, and removing such an entry from the walk leaves the
whole run result, output artifact included, unchanged. -/
theorem claim_c8_excluded (repoDir : String) (thresholdBytes : ℚ) (includeAll : Bool)
    (guessType : String → Option String) (e : WalkEntry)
    (h : strContains e.root "node_modules" = true) :
    (∀ acc : RunResult, Dpp.processEntry repoDir thresholdBytes includeAll guessType acc e = acc)
    ∧ (∀ (w1 w2 : List WalkEntry) (threshold_mb : ℚ),
        Dpp.process_files repoDir (w1 ++ e :: w2) threshold_mb includeAll guessType =
          Dpp.process_files repoDir (w1 ++ w2) threshold_mb includeAll guessType) := by
  have hent : ∀ (tb : ℚ) (acc : RunResult),
      Dpp.processEntry repoDir tb includeAll guessType acc e = acc := by
    intro tb acc
    unfold Dpp.processEntry
    simp [h]
  refine ⟨hent thresholdBytes, ?_⟩
  intro w1 w2 tm
  simp only [Dpp.process_files, List.foldl_append, List.foldl_cons]
  rw [hent]

/-- Witness for C8: a node_modules directory holding an includable
JavaScript file leaves the accumulated state exactly as it was. -/
theorem claim_c8_excluded_witness :
    Dpp.processEntry "repo" 1 false (fun _ => none)
      ⟨"out", 3, 4⟩ ⟨"repo/node_modules/pkg", [("index.js", FileData.ok 10 "x")]⟩ =
      ⟨"out", 3, 4⟩ :=
  (claim_c8_excluded "repo" 1 false (fun _ => none)
      ⟨"repo/node_modules/pkg", [("index.js", FileData.ok 10 "x")]⟩ (by decide)).1 ⟨"out", 3, 4⟩

namespace Dpp

/-- The inner loop appends exactly the per-file output fragments, in
traversal order, to the artifact accumulated so far. -/
theorem processFilesFold_output (repoDir : String) (thresholdBytes : ℚ) (includeAll : Bool)
    (guessType : String → Option String) (root : String) :
    ∀ (fs : List (String × FileData)) (acc : RunResult),
    (processFilesFold repoDir thresholdBytes includeAll guessType root acc fs).output =
      acc.output ++ (fs.map (fun f =>
        (processOneFile repoDir thresholdBytes includeAll guessType root f).1)).foldr
        (fun a b => a ++ b) "" := by
  intro fs
  induction fs with
  | nil => intro acc; simp [processFilesFold]
  | cons f fs ih =>
    intro acc
    simp only [processFilesFold, List.foldl_cons, List.map_cons, List.foldr_cons] at ih ⊢
    rw [ih]
    simp [addOutcome, String.append_assoc]

end Dpp

/-- C4: a readable candidate that passes the filter contributes exactly
one record, consisting of a line of 80 equals signs, the File line with
the path relative to the root, the Size line with the size divided by
1024 to two decimal places followed by KB, another line of 80 equals
signs, a blank line, the raw content and a trailing newline; a 50-byte
file prints as 0.05; and the inner loop appends the per-file fragments in
traversal order. -/
theorem claim_c4_record (repoDir : String) (thresholdBytes : ℚ) (includeAll : Bool)
    (guessType : String → Option String) (root name : String) (size : Nat) (content : String)
    (hpass : includeAll = true ∨ ((size : ℚ) ≤ thresholdBytes ∧
      Dpp.is_text_file guessType (joinPath root name) = true)) :
    Dpp.processOneFile repoDir thresholdBytes includeAll guessType root
        (name, FileData.ok size content) =
      (Dpp.mkRecord (relpath (joinPath root name) repoDir) size content, 1, 0)
    ∧ Dpp.mkRecord (relpath (joinPath root name) repoDir) size content =
        Dpp.sepLine ++ "\n" ++ "File: " ++ relpath (joinPath root name) repoDir ++ "\n" ++
        "Size: " ++ format2f size ++ " KB" ++ "\n" ++ Dpp.sepLine ++ "\n" ++ "\n" ++
        content ++ "\n"
    ∧ Dpp.sepLine.data = List.replicate 80 '='
    ∧ format2f 50 = "0.05"
    ∧ (∀ (fs : List (String × FileData)) (acc : RunResult),
        (Dpp.processFilesFold repoDir thresholdBytes includeAll guessType root acc fs).output =
          acc.output ++ (fs.map (fun f =>
            (Dpp.processOneFile repoDir thresholdBytes includeAll guessType root f).1)).foldr
            (fun a b => a ++ b) "") := by
  refine ⟨?_, rfl, by decide, by decide,
    Dpp.processFilesFold_output repoDir thresholdBytes includeAll guessType root⟩
  simp only [Dpp.processOneFile]
  split_ifs with h1 h2
  · exfalso
    rcases h1 with ⟨hia, hlt⟩
    rcases hpass with h | ⟨hle, _⟩
    · rw [h] at hia; simp at hia
    · exact absurd hlt (not_lt.mpr hle)
  · exfalso
    rcases h2 with ⟨hia, htext⟩
    rcases hpass with h | ⟨_, htrue⟩
    · rw [h] at hia; simp at hia
    · rw [htrue] at htext; simp at htext
  · rfl

/-- Witness for C4: the specified scenario, a 50-byte UTF-8 file a.txt
under a 0.1 megabyte threshold produces the record for relative path
a.txt with the 0.05 size header. -/
theorem claim_c4_record_witness :
    Dpp.processOneFile "repo" ((1 / 10 : ℚ) * 1024 * 1024) false (fun _ => none) "repo"
      ("a.txt", FileData.ok 50 "hello") =
      (Dpp.mkRecord (relpath (joinPath "repo" "a.txt") "repo") 50 "hello", 1, 0) :=
  (claim_c4_record "repo" ((1 / 10 : ℚ) * 1024 * 1024) false (fun _ => none) "repo" "a.txt"
    50 "hello" (Or.inr ⟨by norm_num, by decide⟩)).1

/-- C5: a candidate whose read fails to decode as UTF-8 or whose sizing or
opening raises an I/O error contributes one to the skipped counter,
writes nothing, and processing continues with the remaining candidates of
the directory from the incremented state. -/
theorem claim_c5_recoverable (repoDir : String) (thresholdBytes : ℚ) (includeAll : Bool)
    (guessType : String → Option String) (root name : String) (fd : FileData)
    (h : fd = FileData.ioError ∨ ∃ size, fd = FileData.decodeError size) :
    Dpp.processOneFile repoDir thresholdBytes includeAll guessType root (name, fd) = ("", 0, 1)
    ∧ (∀ (acc : RunResult) (fs : List (String × FileData)),
        Dpp.processFilesFold repoDir thresholdBytes includeAll guessType root acc
            ((name, fd) :: fs) =
          Dpp.processFilesFold repoDir thresholdBytes includeAll guessType root
            ⟨acc.output, acc.processed, acc.skipped + 1⟩ fs) := by
  have h1 : Dpp.processOneFile repoDir thresholdBytes includeAll guessType root (name, fd) =
      ("", 0, 1) := by
    rcases h with h | ⟨size, h⟩
    · subst h; rfl
    · subst h
      simp only [Dpp.processOneFile]
      split_ifs <;> rfl
  refine ⟨h1, ?_⟩
  intro acc fs
  simp only [Dpp.processFilesFold, List.foldl_cons]
  congr 1
  rw [h1]
  simp [Dpp.addOutcome]

/-- Witness for C5: a file with invalid UTF-8 content is skipped with no
output and no processed count. -/
theorem claim_c5_recoverable_witness :
    Dpp.processOneFile "r" 1 false (fun _ => none) "r" ("broken.txt", FileData.decodeError 10) =
      ("", 0, 1) :=
  (claim_c5_recoverable "r" 1 false (fun _ => none) "r" "broken.txt"
    (FileData.decodeError 10) (Or.inr ⟨10, rfl⟩)).1

/-- C6: a run over a root that does not exist or is not a directory fails
with a distinguishable error before any processing, and a run whose
output artifact cannot be opened for writing fails with a distinguishable
error; neither completes successfully with zero counts. -/
theorem claim_c6_fatal (pathExists pathIsDir gitDirExists gitDirIsDir outputOpenable : Bool)
    (repoDir : String) (walk : List WalkEntry) (threshold_mb : ℚ) (include_all : Bool)
    (guessType : String → Option String) :
    ((pathExists = false ∨ pathIsDir = false) →
      ∃ msg, NewMain.main_local pathExists pathIsDir gitDirExists gitDirIsDir outputOpenable
        repoDir walk threshold_mb include_all guessType = Except.error msg)
    ∧ (outputOpenable = false →
      ∃ msg, Dpp.process_files_run outputOpenable repoDir walk threshold_mb include_all
        guessType = Except.error msg) := by
  constructor
  · intro h
    refine ⟨"Local path does not exist or is not a directory.", ?_⟩
    unfold NewMain.main_local
    rw [if_pos h]
  · intro h
    subst h
    exact ⟨"Failed to process files", rfl⟩

/-- Witness for C6: a missing root makes the local front-end fail, and an
unopenable output artifact makes the core fail. -/
theorem claim_c6_fatal_witness :
    (∃ msg, NewMain.main_local false true true true true "r" [] 1 false (fun _ => none) =
      Except.error msg)
    ∧ (∃ msg, Dpp.process_files_run false "r" [] 1 false (fun _ => none) =
      Except.error msg) :=
  ⟨(claim_c6_fatal false true true true true "r" [] 1 false (fun _ => none)).1 (Or.inl rfl),
   (claim_c6_fatal true true true true false "r" [] 1 false (fun _ => none)).2 rfl⟩

/-- Counterexample to C7 as stated: with includeAll set, a candidate that
hits a per-file I/O error is still skipped, so UTF-8 decode failures are
not the only remaining skip cause; in this run the lone skipped file is
an I/O error, which is not a decode failure. -/
theorem claim_c7_counterexample :
    (Dpp.process_files "r" [⟨"r", [("gone.txt", FileData.ioError)]⟩] 1 true
      (fun _ => none)).skipped = 1
    ∧ (∀ size, FileData.ioError ≠ FileData.decodeError size) := by
  constructor
  · decide
  · intro size h
    cases h

/-- C7 as amended: with includeAll no candidate is skipped for size or
classification reasons — every readable candidate is processed — and only
UTF-8 decode failures or per-file I/O errors may still cause a skip; in
particular a file with invalid UTF-8 yields processed zero and skipped
one for any threshold. -/
theorem claim_c7_amended (repoDir : String) (thresholdBytes : ℚ)
    (guessType : String → Option String) (root name : String) (fd : FileData)
    (size : Nat) (content : String) :
    (Dpp.processOneFile repoDir thresholdBytes true guessType root
      (name, FileData.ok size content)).2.2 = 0
    ∧ ((Dpp.processOneFile repoDir thresholdBytes true guessType root (name, fd)).2.2 = 1 →
        fd = FileData.ioError ∨ ∃ s, fd = FileData.decodeError s)
    ∧ (∀ (threshold_mb : ℚ) (s : Nat),
        Dpp.process_files "r" [⟨"r", [("broken.txt", FileData.decodeError s)]⟩] threshold_mb
          true guessType = ⟨"", 0, 1⟩) := by
  refine ⟨?_, ?_, ?_⟩
  · simp [Dpp.processOneFile]
  · intro hskip
    cases fd with
    | ioError => exact Or.inl rfl
    | decodeError s => exact Or.inr ⟨s, rfl⟩
    | ok s c =>
      exfalso
      simp [Dpp.processOneFile] at hskip
  · intro threshold_mb s
    simp [Dpp.process_files, Dpp.processEntry, Dpp.processFilesFold, Dpp.processOneFile,
      Dpp.addOutcome, show strContains "r" "node_modules" = false from by decide]

/-- Witness for C7 amended: a skipped candidate under includeAll is
revealed to be a decode failure or an I/O error. -/
theorem claim_c7_amended_witness :
    FileData.decodeError 5 = FileData.ioError ∨
      ∃ s, FileData.decodeError 5 = FileData.decodeError s :=
  (claim_c7_amended "r" 1 (fun _ => none) "r" "broken.txt" (FileData.decodeError 5) 0 "").2.1
    (by decide)

/-- Models the artifact file on disk after a run: the output file is
opened in truncate mode, so whatever content it held before the run is
discarded and the final content is the run output alone. -/
def finalArtifact (_priorContent : String) (repoDir : String) (walk : List WalkEntry)
    (threshold_mb : ℚ) (include_all : Bool) (guessType : String → Option String) : String :=
  (Dpp.process_files repoDir walk threshold_mb include_all guessType).output

/-- C9: two runs over the same root, walk and configuration produce
byte-identical artifacts and identical counters, whatever the output file
held before each run. -/
theorem claim_c9_deterministic (repoDir : String) (walk : List WalkEntry) (threshold_mb : ℚ)
    (include_all : Bool) (guessType : String → Option String) (prior1 prior2 : String) :
    finalArtifact prior1 repoDir walk threshold_mb include_all guessType =
      finalArtifact prior2 repoDir walk threshold_mb include_all guessType
    ∧ Dpp.process_files repoDir walk threshold_mb include_all guessType =
      Dpp.process_files repoDir walk threshold_mb include_all guessType :=
  ⟨rfl, rfl⟩

/-- C10: the two duplicated engines are extensionally equal: on every
root, walk, threshold and include-all flag they produce identical run
results, their classifiers agree on every path, and their fatal
output-open behaviour is identical. -/
theorem claim_c10_engines_equal (repoDir : String) (walk : List WalkEntry) (threshold_mb : ℚ)
    (include_all : Bool) (guessType : String → Option String) :
    Dpp.process_files repoDir walk threshold_mb include_all guessType =
      NewMain.process_files repoDir walk threshold_mb include_all guessType
    ∧ (∀ filepath, Dpp.is_text_file guessType filepath = NewMain.is_text_file guessType filepath)
    ∧ (∀ outputOpenable,
        Dpp.process_files_run outputOpenable repoDir walk threshold_mb include_all guessType =
          NewMain.process_files_run outputOpenable repoDir walk threshold_mb include_all
            guessType) :=
  ⟨rfl, fun _ => rfl, fun _ => rfl⟩
